import Mathlib

/-!
Verification of the condition-analysis / ripening-advisory engine of the
warehouse-monitoring repository (`src/app.py`, class `AIRipeningEngine`).

The engine is embedded shallowly: sensor readings, timestamps and
thresholds become rationals (`ℚ`); nullable readings become `Option ℚ`;
timestamps are seconds since an arbitrary epoch, so that the Python
expression `(datetime.now(timezone.utc) - batch_start).total_seconds() / 3600`
becomes `(now - batchStart) / 3600`.  The ambient clock reading performed by
`datetime.now(timezone.utc)` inside `analyze_conditions` and
`_check_ventilation_schedule` is modelled as the explicit parameter `now`.
Alert and recommendation messages are Python f-strings; each message site is
modelled as a constructor carrying the interpolated numeric payload, which
preserves identity and distinctness of messages without modelling decimal
formatting.  Severity levels and stage labels are the Python strings.
-/

namespace Warehouse

/-- Temperature threshold block of `AVOCADO_PARAMS['temperature']`. -/
structure TempParams where
  optimal_min : ℚ
  optimal_max : ℚ
  storage_min : ℚ
  storage_max : ℚ
  critical_high : ℚ
  critical_low : ℚ
deriving Repr, DecidableEq

/-- Humidity threshold block of `AVOCADO_PARAMS['humidity']`. -/
structure HumidityParams where
  optimal_min : ℚ
  optimal_max : ℚ
  warning_low : ℚ
  critical_low : ℚ
deriving Repr, DecidableEq

/-- Ethylene threshold block of `AVOCADO_PARAMS['ethylene']`. -/
structure EthyleneParams where
  optimal_min : ℚ
  optimal_max : ℚ
  warning_low : ℚ
  critical_high : ℚ
deriving Repr, DecidableEq

/-- One season's entry of `AVOCADO_PARAMS['ripening_time']`. -/
structure SeasonParams where
  ethylene_hours : ℚ
  total_days : ℚ
deriving Repr, DecidableEq

/-- Ventilation block of `AVOCADO_PARAMS['ventilation']`. -/
structure VentilationParams where
  interval_hours : ℚ
  duration_minutes : ℚ
deriving Repr, DecidableEq

/-- The whole `AVOCADO_PARAMS` configuration dict. -/
structure Params where
  ethylene : EthyleneParams
  temperature : TempParams
  humidity : HumidityParams
  early_season : SeasonParams
  mid_season : SeasonParams
  late_season : SeasonParams
  ventilation : VentilationParams
deriving Repr, DecidableEq

/-- `AVOCADO_PARAMS` from `src/app.py` lines 354-384. -/
def AVOCADO_PARAMS : Params :=
  { ethylene := { optimal_min := 10, optimal_max := 100, warning_low := 5, critical_high := 150 }
  , temperature := { optimal_min := 60, optimal_max := 68, storage_min := 40, storage_max := 45
                   , critical_high := 86, critical_low := 40 }
  , humidity := { optimal_min := 90, optimal_max := 95, warning_low := 85, critical_low := 80 }
  , early_season := { ethylene_hours := 48, total_days := 6 }
  , mid_season := { ethylene_hours := 36, total_days := 5 }
  , late_season := { ethylene_hours := 24, total_days := 4 }
  , ventilation := { interval_hours := 12, duration_minutes := 20 } }

/-- `self.params['ripening_time'].get(season, self.params['ripening_time']['mid_season'])`:
lookup of a season key with fallback to `mid_season`. -/
def ripeningTimeGet (p : Params) (season : String) : SeasonParams :=
  if season = "early_season" then p.early_season
  else if season = "mid_season" then p.mid_season
  else if season = "late_season" then p.late_season
  else p.mid_season

/-- Alert message sites of the three classifiers, each carrying the numeric
value interpolated into the Python f-string. -/
inductive AlertMsg where
  | tempCriticalHigh (t : ℚ)
  | tempAboveOptimal (t : ℚ)
  | tempCriticalLow (t : ℚ)
  | tempBelowOptimal (t : ℚ)
  | humCriticalLow (h : ℚ)
  | humBelowOptimal (h : ℚ)
  | humAboveOptimal (h : ℚ)
  | ethVeryHigh (e : ℚ)
  | ethVeryLow (e : ℚ)
deriving Repr, DecidableEq

/-- Recommendation message sites, each carrying its interpolated numeric
payload when the Python f-string has one. -/
inductive RecMsg where
  | tempLowerImmediately
  | tempReduceBy (d : ℚ)
  | tempRaiseImmediately
  | tempIncreaseBy (d : ℚ)
  | humIncreaseImmediately
  | humIncreaseBy (d : ℚ)
  | humReduceSlightly
  | ethVentilate
  | ethAddGenerator
  | ethBelowOptimalInfo (e : ℚ)
  | ventilationDueSoon
  | ventilationRecentlyCompleted
  | allConditionsOptimal
deriving Repr, DecidableEq

/-- One alert dict `{'type': ..., 'message': ...}`. -/
structure Alert where
  type : String
  message : AlertMsg
deriving Repr, DecidableEq

/-- One recommendation dict `{'type': ..., 'message': ..., 'priority': ...}`. -/
structure Recommendation where
  type : String
  message : RecMsg
  priority : String
deriving Repr, DecidableEq

/-- The result dict returned by `analyze_conditions`. -/
structure AnalysisResult where
  status : String
  alerts : List Alert
  recommendations : List Recommendation
  ripening_stage : String
  progress_percent : ℚ
  time_remaining : Option ℚ
deriving Repr, DecidableEq

/-- `AIRipeningEngine._analyze_temperature` (`src/app.py` lines 588-642).
Returns the `(status, alerts, recommendations)` triple.  A `None` reading
returns `'unknown'` with empty lists; otherwise the four guards are checked
in source order. -/
def analyzeTemperature (p : Params) (temp_f : Option ℚ) :
    String × List Alert × List Recommendation :=
  match temp_f with
  | none => ("unknown", [], [])
  | some t =>
    let pt := p.temperature
    if t ≥ pt.critical_high then
      ("critical", [⟨"critical", .tempCriticalHigh t⟩],
        [⟨"action", .tempLowerImmediately, "critical"⟩])
    else if t > pt.optimal_max then
      ("warning", [⟨"warning", .tempAboveOptimal t⟩],
        [⟨"action", .tempReduceBy (t - pt.optimal_max), "high"⟩])
    else if t < pt.critical_low then
      ("critical", [⟨"critical", .tempCriticalLow t⟩],
        [⟨"action", .tempRaiseImmediately, "critical"⟩])
    else if t < pt.optimal_min then
      ("warning", [⟨"warning", .tempBelowOptimal t⟩],
        [⟨"action", .tempIncreaseBy (pt.optimal_min - t), "medium"⟩])
    else
      ("optimal", [], [])

/-- `AIRipeningEngine._analyze_humidity` (`src/app.py` lines 644-687). -/
def analyzeHumidity (p : Params) (humidity : Option ℚ) :
    String × List Alert × List Recommendation :=
  match humidity with
  | none => ("unknown", [], [])
  | some h =>
    let ph := p.humidity
    if h < ph.critical_low then
      ("critical", [⟨"critical", .humCriticalLow h⟩],
        [⟨"action", .humIncreaseImmediately, "critical"⟩])
    else if h < ph.warning_low then
      ("warning", [⟨"warning", .humBelowOptimal h⟩],
        [⟨"action", .humIncreaseBy (ph.optimal_min - h), "high"⟩])
    else if h > ph.optimal_max then
      ("warning", [⟨"warning", .humAboveOptimal h⟩],
        [⟨"action", .humReduceSlightly, "medium"⟩])
    else
      ("optimal", [], [])

/-- `AIRipeningEngine._analyze_ethylene` (`src/app.py` lines 689-727).
Note the top branch sets status to `'warning'`, never `'critical'`, and the
`< optimal_min` branch adds an informational recommendation without changing
the status. -/
def analyzeEthylene (p : Params) (ethylene_ppm : Option ℚ) :
    String × List Alert × List Recommendation :=
  match ethylene_ppm with
  | none => ("unknown", [], [])
  | some e =>
    let pe := p.ethylene
    if e > pe.critical_high then
      ("warning", [⟨"warning", .ethVeryHigh e⟩],
        [⟨"action", .ethVentilate, "high"⟩])
    else if e < pe.warning_low then
      ("warning", [⟨"warning", .ethVeryLow e⟩],
        [⟨"action", .ethAddGenerator, "medium"⟩])
    else if e < pe.optimal_min then
      ("optimal", [], [⟨"info", .ethBelowOptimalInfo e, "low"⟩])
    else
      ("optimal", [], [])

/-- Python's float `%` (sign follows the divisor): `a - b * floor (a / b)`. -/
def pyMod (a b : ℚ) : ℚ := a - b * (⌊a / b⌋ : ℚ)

/-- `AIRipeningEngine._check_ventilation_schedule` (`src/app.py` lines
729-752).  `now` and `batch_start_time` are timestamps in seconds; the
function returns `none` when no batch is active. -/
def checkVentilationSchedule (p : Params) (batch_start_time : Option ℚ) (now : ℚ) :
    Option Recommendation :=
  match batch_start_time with
  | none => none
  | some bs =>
    let hours_elapsed := (now - bs) / 3600
    let vent_interval := p.ventilation.interval_hours
    let hours_since_last_vent := pyMod hours_elapsed vent_interval
    if hours_since_last_vent ≥ vent_interval - 1/2 then
      some ⟨"action", .ventilationDueSoon, "medium"⟩
    else if hours_since_last_vent < 1/2 then
      some ⟨"info", .ventilationRecentlyCompleted, "low"⟩
    else
      none

/-- The per-metric status merge repeated three times inside
`analyze_conditions`: `if s == 'critical': status = 'critical'
elif s == 'warning' and status != 'critical': status = 'warning'`. -/
def escalate (status s : String) : String :=
  if s = "critical" then "critical"
  else if s = "warning" ∧ status ≠ "critical" then "warning"
  else status

/-- The progress / stage / time-remaining block of `analyze_conditions`
(`src/app.py` lines 545-565).  The initial values `(0, 'Green', None)` are
kept when no batch is active. -/
def progressBlock (p : Params) (batch_start_time : Option ℚ) (season : String)
    (now : ℚ) : ℚ × String × Option ℚ :=
  match batch_start_time with
  | none => (0, "Green", none)
  | some bs =>
    let hours_elapsed := (now - bs) / 3600
    let season_params := ripeningTimeGet p season
    let total_hours := season_params.total_days * 24
    let progress_percent := min 100 (hours_elapsed / total_hours * 100)
    let time_remaining := max 0 (total_hours - hours_elapsed)
    let ripening_stage :=
      if progress_percent < 20 then "Green"
      else if progress_percent < 50 then "Breaking"
      else if progress_percent < 80 then "Ripe"
      else "Ready-to-Eat"
    (progress_percent, ripening_stage, some time_remaining)

/-- `AIRipeningEngine.analyze_conditions` (`src/app.py` lines 512-586).
The ambient `datetime.now(timezone.utc)` reads are the parameter `now`. -/
def analyzeConditions (p : Params) (temperature_f humidity ethylene_ppm : Option ℚ)
    (batch_start_time : Option ℚ) (season : String) (now : ℚ) : AnalysisResult :=
  let tRes := analyzeTemperature p temperature_f
  let hRes := analyzeHumidity p humidity
  let eRes := analyzeEthylene p ethylene_ppm
  let status := escalate (escalate (escalate "optimal" tRes.1) hRes.1) eRes.1
  let alerts := tRes.2.1 ++ hRes.2.1 ++ eRes.2.1
  let recommendations := tRes.2.2 ++ hRes.2.2 ++ eRes.2.2
  let prog := progressBlock p batch_start_time season now
  let recommendations :=
    match checkVentilationSchedule p batch_start_time now with
    | some r => recommendations ++ [r]
    | none => recommendations
  let recommendations :=
    if status = "optimal" ∧ alerts = [] then
      ⟨"success", .allConditionsOptimal, "info"⟩ :: recommendations
    else recommendations
  { status := status
  , alerts := alerts
  , recommendations := recommendations
  , ripening_stage := prog.2.1
  , progress_percent := prog.1
  , time_remaining := prog.2.2 }

end Warehouse

/-! ### Helper lemmas -/

namespace Warehouse

/-- The overall status of `analyze_conditions` is the three-fold escalation
of the per-metric statuses, starting from `'optimal'`. -/
theorem analyzeConditions_status (p : Params) (t h e b : Option ℚ) (s : String) (now : ℚ) :
    (analyzeConditions p t h e b s now).status
      = escalate (escalate (escalate "optimal" (analyzeTemperature p t).1)
          (analyzeHumidity p h).1) (analyzeEthylene p e).1 := rfl

/-- `progress_percent` comes from the progress block alone. -/
theorem analyzeConditions_progress (p : Params) (t h e b : Option ℚ) (s : String) (now : ℚ) :
    (analyzeConditions p t h e b s now).progress_percent = (progressBlock p b s now).1 := rfl

/-- `ripening_stage` comes from the progress block alone. -/
theorem analyzeConditions_stage (p : Params) (t h e b : Option ℚ) (s : String) (now : ℚ) :
    (analyzeConditions p t h e b s now).ripening_stage = (progressBlock p b s now).2.1 := rfl

/-- `time_remaining` comes from the progress block alone. -/
theorem analyzeConditions_time_remaining (p : Params) (t h e b : Option ℚ) (s : String) (now : ℚ) :
    (analyzeConditions p t h e b s now).time_remaining = (progressBlock p b s now).2.2 := rfl

/-- The temperature classifier only ever returns one of four status strings. -/
theorem analyzeTemperature_status_cases (p : Params) (t : Option ℚ) :
    (analyzeTemperature p t).1 = "unknown" ∨ (analyzeTemperature p t).1 = "critical"
      ∨ (analyzeTemperature p t).1 = "warning" ∨ (analyzeTemperature p t).1 = "optimal" := by
  unfold analyzeTemperature
  rcases t with _ | x
  · simp
  · dsimp only
    split_ifs <;> simp

/-- The humidity classifier only ever returns one of four status strings. -/
theorem analyzeHumidity_status_cases (p : Params) (h : Option ℚ) :
    (analyzeHumidity p h).1 = "unknown" ∨ (analyzeHumidity p h).1 = "critical"
      ∨ (analyzeHumidity p h).1 = "warning" ∨ (analyzeHumidity p h).1 = "optimal" := by
  unfold analyzeHumidity
  rcases h with _ | x
  · simp
  · dsimp only
    split_ifs <;> simp

/-- The ethylene classifier only ever returns one of four status strings. -/
theorem analyzeEthylene_status_cases (p : Params) (e : Option ℚ) :
    (analyzeEthylene p e).1 = "unknown" ∨ (analyzeEthylene p e).1 = "critical"
      ∨ (analyzeEthylene p e).1 = "warning" ∨ (analyzeEthylene p e).1 = "optimal" := by
  unfold analyzeEthylene
  rcases e with _ | x
  · simp
  · dsimp only
    split_ifs <;> simp

/-- The season lookup always yields a positive total ripening duration
under `AVOCADO_PARAMS`. -/
theorem ripeningTimeGet_total_pos (season : String) :
    0 < (ripeningTimeGet AVOCADO_PARAMS season).total_days * 24 := by
  unfold ripeningTimeGet AVOCADO_PARAMS
  split_ifs <;> norm_num

end Warehouse

/-! ### Claim theorems -/

namespace Warehouse

/-- C1 counterexample: the claim says a reading exactly equal to a critical
boundary is classified critical, in particular `_analyze_temperature(40.0)`
and `_analyze_humidity(80.0)`.  The code compares with strict `<` at the
critical-low boundaries, so both return `'warning'`, not `'critical'`. -/
theorem c1_counterexample :
    (analyzeTemperature AVOCADO_PARAMS (some 40)).1 = "warning"
      ∧ (analyzeTemperature AVOCADO_PARAMS (some 40)).1 ≠ "critical"
      ∧ (analyzeHumidity AVOCADO_PARAMS (some 80)).1 = "warning"
      ∧ (analyzeHumidity AVOCADO_PARAMS (some 80)).1 ≠ "critical" := by
  refine ⟨?_, ?_, ?_, ?_⟩ <;> decide

/-- C1 amended: only the critical-high temperature boundary is inclusive on
the unsafe side (`>=`); the critical-low boundaries of temperature and
humidity are exclusive (strict `<`), so `_analyze_temperature(86.0)` is
critical while `_analyze_temperature(40.0)` and `_analyze_humidity(80.0)`
are only warnings, as are the one-step-inside values `40.1` and `80.1`. -/
theorem c1_boundary_severities :
    (analyzeTemperature AVOCADO_PARAMS (some 86)).1 = "critical"
      ∧ (analyzeTemperature AVOCADO_PARAMS (some 40)).1 = "warning"
      ∧ (analyzeHumidity AVOCADO_PARAMS (some 80)).1 = "warning"
      ∧ (analyzeTemperature AVOCADO_PARAMS (some (401/10))).1 = "warning"
      ∧ (analyzeHumidity AVOCADO_PARAMS (some (801/10))).1 = "warning" := by
  refine ⟨by decide, by decide, by decide, ?_, ?_⟩
  · unfold analyzeTemperature AVOCADO_PARAMS
    norm_num
  · unfold analyzeHumidity AVOCADO_PARAMS
    norm_num

/-- C4: the ethylene classifier never returns severity `'critical'`, and any
reading strictly above the critical-high threshold (150 ppm) yields
`'warning'`. -/
theorem c4_ethylene_never_critical (e : Option ℚ) :
    (analyzeEthylene AVOCADO_PARAMS e).1 ≠ "critical"
      ∧ (∀ x : ℚ, e = some x → 150 < x → (analyzeEthylene AVOCADO_PARAMS e).1 = "warning") := by
  constructor
  · unfold analyzeEthylene
    rcases e with _ | x
    · simp
    · dsimp only
      split_ifs <;> simp
  · rintro x rfl hx
    unfold analyzeEthylene AVOCADO_PARAMS
    dsimp only
    rw [if_pos]
    exact hx

/-- C4 witness at the spec's own instance 150.1 ppm. -/
theorem c4_ethylene_never_critical_witness :
    (analyzeEthylene AVOCADO_PARAMS (some (1501/10))).1 ≠ "critical"
      ∧ (analyzeEthylene AVOCADO_PARAMS (some (1501/10))).1 = "warning" :=
  ⟨(c4_ethylene_never_critical (some (1501/10))).1,
   (c4_ethylene_never_critical (some (1501/10))).2 (1501/10) rfl (by norm_num)⟩

/-- C7 counterexample: the claim says out-of-physical-range readings are
treated as if null (`'unknown'`, no alerts).  The code only checks for
`None`: humidity `-5` falls into the `< critical_low` branch and is
classified `'critical'` with an alert. -/
theorem c7_counterexample :
    (analyzeHumidity AVOCADO_PARAMS (some (-5))).1 = "critical"
      ∧ (analyzeHumidity AVOCADO_PARAMS (some (-5))).1 ≠ "unknown"
      ∧ (analyzeHumidity AVOCADO_PARAMS (some (-5))).2.1 ≠ [] := by
  refine ⟨?_, ?_, ?_⟩ <;> decide

/-- C7 amended: the classifiers treat only a null reading as `'unknown'`;
every numeric value, however non-physical, is classified by the ordinary
threshold comparisons — negative humidity is `'critical'` (below
critical-low) and a temperature below absolute zero (−459.67 °F) is
`'critical'` (below critical-low); no numeric input is treated as null. -/
theorem c7_no_range_guard (x : ℚ) :
    (analyzeTemperature AVOCADO_PARAMS (some x)).1 ≠ "unknown"
      ∧ (analyzeHumidity AVOCADO_PARAMS (some x)).1 ≠ "unknown"
      ∧ (analyzeEthylene AVOCADO_PARAMS (some x)).1 ≠ "unknown"
      ∧ (x < 0 → (analyzeHumidity AVOCADO_PARAMS (some x)).1 = "critical")
      ∧ (x < -45967/100 → (analyzeTemperature AVOCADO_PARAMS (some x)).1 = "critical") := by
  refine ⟨?_, ?_, ?_, ?_, ?_⟩
  · unfold analyzeTemperature
    dsimp only
    split_ifs <;> simp
  · unfold analyzeHumidity
    dsimp only
    split_ifs <;> simp
  · unfold analyzeEthylene
    dsimp only
    split_ifs <;> simp
  · intro hx
    unfold analyzeHumidity AVOCADO_PARAMS
    dsimp only
    rw [if_pos]
    linarith
  · intro hx
    unfold analyzeTemperature AVOCADO_PARAMS
    dsimp only
    rw [if_neg, if_neg, if_pos]
    · linarith
    · push_neg
      linarith
    · push_neg
      linarith

/-- C7 witness at reading −500 (both a negative humidity and a temperature
below absolute zero). -/
theorem c7_no_range_guard_witness :
    (analyzeHumidity AVOCADO_PARAMS (some (-500))).1 = "critical"
      ∧ (analyzeTemperature AVOCADO_PARAMS (some (-500))).1 = "critical" :=
  ⟨(c7_no_range_guard (-500)).2.2.2.1 (by norm_num),
   (c7_no_range_guard (-500)).2.2.2.2 (by norm_num)⟩

end Warehouse

namespace Warehouse

/-- C2 counterexample: the claim says progress always lies in `[0,100]`
because a negative elapsed time is clamped to 0.  The code performs no such
clamp: with `batch_start` one hour after `now` (mid season), the reported
progress is `-5/6 < 0`. -/
theorem c2_counterexample :
    (analyzeConditions AVOCADO_PARAMS none none none (some 3600) "mid_season" 0).progress_percent
      < 0 := by
  unfold analyzeConditions progressBlock ripeningTimeGet AVOCADO_PARAMS
  simp
  norm_num [min_def]

/-- C2 amended: progress is monotonically non-decreasing in the current time
and clamped above at 100, and `time_remaining` is clamped at `≥ 0`; but the
lower clamp claimed for elapsed time does not exist — progress is
non-negative only under the extra hypothesis `batch_start ≤ now`, and is
negative when `now < batch_start`. -/
theorem c2_progress_invariants (t h e : Option ℚ) (bs : ℚ) (season : String)
    (now₁ now₂ : ℚ) (h12 : now₁ ≤ now₂) :
    (analyzeConditions AVOCADO_PARAMS t h e (some bs) season now₁).progress_percent
        ≤ (analyzeConditions AVOCADO_PARAMS t h e (some bs) season now₂).progress_percent
      ∧ (analyzeConditions AVOCADO_PARAMS t h e (some bs) season now₂).progress_percent ≤ 100
      ∧ (bs ≤ now₁ →
          0 ≤ (analyzeConditions AVOCADO_PARAMS t h e (some bs) season now₁).progress_percent)
      ∧ (∀ tr : ℚ,
          (analyzeConditions AVOCADO_PARAMS t h e (some bs) season now₁).time_remaining = some tr
            → 0 ≤ tr) := by
  have hT := ripeningTimeGet_total_pos season
  simp only [analyzeConditions_progress, analyzeConditions_time_remaining, progressBlock]
  refine ⟨?_, ?_, ?_, ?_⟩
  · refine min_le_min le_rfl ?_
    have h36 : (0:ℚ) < 3600 := by norm_num
    have hdiv : (now₁ - bs) / 3600 ≤ (now₂ - bs) / 3600 := by
      apply div_le_div_of_nonneg_right _ h36.le
      linarith
    have : (now₁ - bs) / 3600 / ((ripeningTimeGet AVOCADO_PARAMS season).total_days * 24)
        ≤ (now₂ - bs) / 3600 / ((ripeningTimeGet AVOCADO_PARAMS season).total_days * 24) :=
      div_le_div_of_nonneg_right hdiv hT.le
    nlinarith
  · exact min_le_left _ _
  · intro hbs
    refine le_min (by norm_num) ?_
    have h1 : 0 ≤ (now₁ - bs) / 3600 := div_nonneg (by linarith) (by norm_num)
    have h2 : 0 ≤ (now₁ - bs) / 3600 / ((ripeningTimeGet AVOCADO_PARAMS season).total_days * 24) :=
      div_nonneg h1 hT.le
    nlinarith
  · intro tr htr
    rw [Option.some_inj] at htr
    rw [← htr]
    exact le_max_left _ _

/-- C2 witness: batch started at time 0, observed at times 0 and 3600. -/
theorem c2_progress_invariants_witness :
    (analyzeConditions AVOCADO_PARAMS none none none (some 0) "mid_season" 0).progress_percent
        ≤ (analyzeConditions AVOCADO_PARAMS none none none (some 0) "mid_season"
            3600).progress_percent
      ∧ (analyzeConditions AVOCADO_PARAMS none none none (some 0) "mid_season"
          3600).progress_percent ≤ 100
      ∧ 0 ≤ (analyzeConditions AVOCADO_PARAMS none none none (some 0) "mid_season"
          0).progress_percent := by
  obtain ⟨h1, h2, h3, _⟩ :=
    c2_progress_invariants none none none 0 "mid_season" 0 3600 (by norm_num)
  exact ⟨h1, h2, h3 le_rfl⟩

/-- C9: for an active batch the ripening stage is exactly the threshold
function of the reported progress (`<20` Green, `<50` Breaking, `<80` Ripe,
else Ready-to-Eat), and at the boundary — mid season, elapsed exactly 24 h
of the 120 h total, progress exactly 20 — the stage is `'Breaking'`. -/
theorem c9_stage_thresholds (p : Params) (t h e : Option ℚ) (bs : ℚ) (season : String) (now : ℚ) :
    ((analyzeConditions p t h e (some bs) season now).ripening_stage
        = if (analyzeConditions p t h e (some bs) season now).progress_percent < 20 then "Green"
          else if (analyzeConditions p t h e (some bs) season now).progress_percent < 50 then
            "Breaking"
          else if (analyzeConditions p t h e (some bs) season now).progress_percent < 80 then
            "Ripe"
          else "Ready-to-Eat")
      ∧ (analyzeConditions AVOCADO_PARAMS none none none (some 0) "mid_season"
          86400).progress_percent = 20
      ∧ (analyzeConditions AVOCADO_PARAMS none none none (some 0) "mid_season"
          86400).ripening_stage = "Breaking" := by
  refine ⟨?_, ?_, ?_⟩
  · simp only [analyzeConditions_stage, analyzeConditions_progress, progressBlock]
  · simp only [analyzeConditions_progress, progressBlock]
    unfold ripeningTimeGet AVOCADO_PARAMS
    simp
    all_goals norm_num [min_def]
  · simp only [analyzeConditions_stage, progressBlock]
    unfold ripeningTimeGet AVOCADO_PARAMS
    simp
    all_goals norm_num [min_def]

end Warehouse

namespace Warehouse

/-- `alerts` is the concatenation temperature ++ humidity ++ ethylene. -/
theorem analyzeConditions_alerts (p : Params) (t h e b : Option ℚ) (s : String) (now : ℚ) :
    (analyzeConditions p t h e b s now).alerts
      = (analyzeTemperature p t).2.1 ++ (analyzeHumidity p h).2.1
          ++ (analyzeEthylene p e).2.1 := rfl

/-- The spec's merge rule, written from its words for a refinement
comparison: the maximum of the three per-metric severities under the
ordering `critical > warning > optimal/unknown`. -/
def specOverallStatus (s₁ s₂ s₃ : String) : String :=
  if s₁ = "critical" ∨ s₂ = "critical" ∨ s₃ = "critical" then "critical"
  else if s₁ = "warning" ∨ s₂ = "warning" ∨ s₃ = "warning" then "warning"
  else "optimal"

/-- The spec's severity ordering `critical > warning > optimal/unknown`,
as a numeric rank: `critical` is 2, `warning` is 1, `optimal` and `unknown`
(and anything else) are 0. -/
def sevRank (s : String) : ℕ :=
  if s = "critical" then 2 else if s = "warning" then 1 else 0

/-- C3: the overall status of `analyze_conditions` is the maximum of the
three per-metric severities under `critical > warning > optimal/unknown`:
it equals the spec's merge rule `specOverallStatus`, its severity rank is
the `max` of the three per-metric ranks (where `'unknown'` ranks 0, the
same as `'optimal'`, so an `'unknown'` metric never raises the overall
status), and the overall status itself is always one of
`'optimal'`/`'warning'`/`'critical'` — never `'unknown'`. -/
theorem c3_overall_status_is_max (p : Params) (t h e b : Option ℚ) (s : String) (now : ℚ) :
    ((analyzeConditions p t h e b s now).status
        = specOverallStatus (analyzeTemperature p t).1 (analyzeHumidity p h).1
            (analyzeEthylene p e).1)
      ∧ sevRank (analyzeConditions p t h e b s now).status
          = max (max (sevRank (analyzeTemperature p t).1) (sevRank (analyzeHumidity p h).1))
              (sevRank (analyzeEthylene p e).1)
      ∧ ((analyzeConditions p t h e b s now).status = "optimal"
          ∨ (analyzeConditions p t h e b s now).status = "warning"
          ∨ (analyzeConditions p t h e b s now).status = "critical") := by
  rcases analyzeTemperature_status_cases p t with h1 | h1 | h1 | h1 <;>
    rcases analyzeHumidity_status_cases p h with h2 | h2 | h2 | h2 <;>
      rcases analyzeEthylene_status_cases p e with h3 | h3 | h3 | h3 <;>
        rw [analyzeConditions_status, h1, h2, h3] <;> decide

/-- C5 counterexample: `analyze_conditions` reads the clock rather than an
injected time — with every declared argument held fixed (sensors, batch
start, season) two different ambient clock readings give different results,
so the result does not depend on the arguments alone. -/
theorem c5_counterexample :
    (analyzeConditions AVOCADO_PARAMS none none none (some 0) "mid_season" 0).progress_percent
        ≠ (analyzeConditions AVOCADO_PARAMS none none none (some 0) "mid_season"
            3600).progress_percent
      ∧ analyzeConditions AVOCADO_PARAMS none none none (some 0) "mid_season" 0
        ≠ analyzeConditions AVOCADO_PARAMS none none none (some 0) "mid_season" 3600 := by
  have h1 : (analyzeConditions AVOCADO_PARAMS none none none (some 0) "mid_season"
      0).progress_percent = 0 := by
    simp only [analyzeConditions_progress, progressBlock]
    unfold ripeningTimeGet AVOCADO_PARAMS
    simp
  have h2 : (analyzeConditions AVOCADO_PARAMS none none none (some 0) "mid_season"
      3600).progress_percent = 5/6 := by
    simp only [analyzeConditions_progress, progressBlock]
    unfold ripeningTimeGet AVOCADO_PARAMS
    simp
    all_goals norm_num [min_def]
  have hne : (analyzeConditions AVOCADO_PARAMS none none none (some 0) "mid_season"
      0).progress_percent ≠ (analyzeConditions AVOCADO_PARAMS none none none (some 0)
        "mid_season" 3600).progress_percent := by
    rw [h1, h2]
    norm_num
  exact ⟨hne, fun hEq => hne (congrArg AnalysisResult.progress_percent hEq)⟩

/-- C5 amended: the code reads `datetime.now(timezone.utc)` (an ambient
clock) instead of taking an injected time; with that clock reading modelled
as the explicit parameter `now` and also held identical, two calls with
identical sensors, batch start and season yield identical results — the
result depends on nothing but the arguments and the ambient clock. -/
theorem c5_determinism (p : Params) (t h e b : Option ℚ) (s : String) (n₁ n₂ : ℚ)
    (hn : n₁ = n₂) :
    analyzeConditions p t h e b s n₁ = analyzeConditions p t h e b s n₂ := by
  rw [hn]

/-- C5 witness at a concrete repeated call. -/
theorem c5_determinism_witness :
    analyzeConditions AVOCADO_PARAMS none none none none "mid_season" 0
      = analyzeConditions AVOCADO_PARAMS none none none none "mid_season" 0 :=
  c5_determinism AVOCADO_PARAMS none none none none "mid_season" 0 0 rfl

/-- C6 counterexample: the claim says the 'due soon' recommendation is
emitted exactly when `phase ≥ interval − 1 = 11`.  At elapsed 11.2 h
(`now = 40320` s, batch start 0) the phase is `11.2 ≥ 11`, yet the code —
which compares against `interval − 0.5 = 11.5` — emits nothing. -/
theorem c6_counterexample :
    (12:ℚ) - 1 ≤ pyMod ((40320 - 0) / 3600) 12
      ∧ checkVentilationSchedule AVOCADO_PARAMS (some 0) 40320 = none := by
  constructor
  · unfold pyMod
    norm_num
  · unfold checkVentilationSchedule pyMod AVOCADO_PARAMS
    norm_num

/-- C6 amended: with `phase = elapsed_hours mod 12`, the ventilation check
emits the 'due soon' recommendation exactly when `phase ≥ interval − 0.5 =
11.5` (the last half hour of the cycle, not the last hour), emits the
'recently completed' message exactly when `phase < 0.5`, returns at most one
recommendation, and returns nothing when `batch_start` is null. -/
theorem c6_ventilation_schedule (bs now : ℚ) :
    (checkVentilationSchedule AVOCADO_PARAMS (some bs) now
        = some ⟨"action", .ventilationDueSoon, "medium"⟩
      ↔ 23/2 ≤ pyMod ((now - bs) / 3600) 12)
      ∧ (checkVentilationSchedule AVOCADO_PARAMS (some bs) now
          = some ⟨"info", .ventilationRecentlyCompleted, "low"⟩
        ↔ pyMod ((now - bs) / 3600) 12 < 1/2)
      ∧ (∀ b : Option ℚ, (checkVentilationSchedule AVOCADO_PARAMS b now).toList.length ≤ 1)
      ∧ checkVentilationSchedule AVOCADO_PARAMS none now = none := by
  refine ⟨?_, ?_, ?_, rfl⟩
  · unfold checkVentilationSchedule AVOCADO_PARAMS
    dsimp only
    split_ifs with hd hr
    · simp only [Option.some_inj]
      constructor
      · intro _
        linarith
      · intro _
        trivial
    · simp only [Option.some_inj]
      constructor
      · intro hEq
        exact absurd (congrArg Recommendation.type hEq) (by decide)
      · intro hphase
        exact absurd hphase (by push_neg at hd ⊢; linarith)
    · constructor
      · intro hEq
        exact absurd hEq (by simp)
      · intro hphase
        exact absurd hphase (by push_neg at hd ⊢; linarith)
  · unfold checkVentilationSchedule AVOCADO_PARAMS
    dsimp only
    split_ifs with hd hr
    · simp only [Option.some_inj]
      constructor
      · intro hEq
        exact absurd (congrArg Recommendation.type hEq) (by decide)
      · intro hphase
        linarith
    · constructor
      · intro _
        exact hr
      · intro _
        rfl
    · constructor
      · intro hEq
        exact absurd hEq (by simp)
      · intro hphase
        exact absurd hphase hr
  · intro b
    rcases b with _ | b₀
    · simp [checkVentilationSchedule]
    · unfold checkVentilationSchedule
      dsimp only
      split_ifs <;> simp

/-- C6 witness at the spec's own instance: elapsed 11.6 h (phase 11.6) is
within the emitting window, and a null batch start emits nothing. -/
theorem c6_ventilation_schedule_witness :
    checkVentilationSchedule AVOCADO_PARAMS (some 0) 41760
        = some ⟨"action", .ventilationDueSoon, "medium"⟩
      ∧ checkVentilationSchedule AVOCADO_PARAMS none 41760 = none :=
  ⟨(c6_ventilation_schedule 0 41760).1.mpr (by unfold pyMod; norm_num),
   (c6_ventilation_schedule 0 41760).2.2.2⟩

end Warehouse

namespace Warehouse

/-- No recommendation emitted by the temperature classifier carries the
synthetic success message. -/
theorem analyzeTemperature_no_success (p : Params) (t : Option ℚ) :
    ∀ r ∈ (analyzeTemperature p t).2.2, r.message ≠ RecMsg.allConditionsOptimal := by
  unfold analyzeTemperature
  rcases t with _ | x
  · simp
  · dsimp only
    split_ifs <;> simp

/-- No recommendation emitted by the humidity classifier carries the
synthetic success message. -/
theorem analyzeHumidity_no_success (p : Params) (h : Option ℚ) :
    ∀ r ∈ (analyzeHumidity p h).2.2, r.message ≠ RecMsg.allConditionsOptimal := by
  unfold analyzeHumidity
  rcases h with _ | x
  · simp
  · dsimp only
    split_ifs <;> simp

/-- No recommendation emitted by the ethylene classifier carries the
synthetic success message. -/
theorem analyzeEthylene_no_success (p : Params) (e : Option ℚ) :
    ∀ r ∈ (analyzeEthylene p e).2.2, r.message ≠ RecMsg.allConditionsOptimal := by
  unfold analyzeEthylene
  rcases e with _ | x
  · simp
  · dsimp only
    split_ifs <;> simp

/-- The ventilation reminder never carries the synthetic success message. -/
theorem checkVentilationSchedule_no_success (p : Params) (b : Option ℚ) (now : ℚ) :
    ∀ r ∈ (checkVentilationSchedule p b now).toList,
      r.message ≠ RecMsg.allConditionsOptimal := by
  unfold checkVentilationSchedule
  rcases b with _ | bs
  · simp
  · dsimp only
    split_ifs <;> simp

/-- No recommendation of the merged classifier + ventilation output carries
the synthetic success message. -/
theorem merged_recs_no_success (p : Params) (t h e b : Option ℚ) (now : ℚ) :
    ∀ r ∈ (analyzeTemperature p t).2.2 ++ (analyzeHumidity p h).2.2
        ++ (analyzeEthylene p e).2.2 ++ (checkVentilationSchedule p b now).toList,
      r.message ≠ RecMsg.allConditionsOptimal := by
  intro r hr
  simp only [List.mem_append] at hr
  rcases hr with ((hr | hr) | hr) | hr
  · exact analyzeTemperature_no_success p t r hr
  · exact analyzeHumidity_no_success p h r hr
  · exact analyzeEthylene_no_success p e r hr
  · exact checkVentilationSchedule_no_success p b now r hr

/-- A list none of whose members carries the success message cannot have
the synthetic success recommendation at its head. -/
theorem head_no_success {l : List Recommendation}
    (hl : ∀ r ∈ l, r.message ≠ RecMsg.allConditionsOptimal) :
    l.head? ≠ some ⟨"success", RecMsg.allConditionsOptimal, "info"⟩ := by
  cases l with
  | nil => simp
  | cons x xs =>
    intro hx
    have hx2 : x = ⟨"success", RecMsg.allConditionsOptimal, "info"⟩ := by
      simpa using hx
    exact hl x (List.mem_cons_self x xs) (by rw [hx2])

/-- The recommendation list of `analyze_conditions` decomposed: the
synthetic success recommendation is prepended exactly under the final
`if status == 'optimal' and not alerts` guard, in front of the merged
temperature ++ humidity ++ ethylene ++ ventilation recommendations. -/
theorem analyzeConditions_recommendations (p : Params) (t h e b : Option ℚ) (s : String)
    (now : ℚ) :
    (analyzeConditions p t h e b s now).recommendations
      = (if (analyzeConditions p t h e b s now).status = "optimal"
            ∧ (analyzeConditions p t h e b s now).alerts = []
         then [(⟨"success", RecMsg.allConditionsOptimal, "info"⟩ : Recommendation)] else [])
        ++ ((analyzeTemperature p t).2.2 ++ (analyzeHumidity p h).2.2
            ++ (analyzeEthylene p e).2.2 ++ (checkVentilationSchedule p b now).toList) := by
  rw [analyzeConditions_status, analyzeConditions_alerts]
  simp only [analyzeConditions]
  rcases hv : checkVentilationSchedule p b now with _ | r <;>
    split_ifs <;> simp

/-- C8 counterexample: the claim says an in-range reading makes the
classifier return a non-empty affirmative message.  Temperature 64 °F lies
inside the optimal range 60–68, yet `_analyze_temperature` returns
`('optimal', [], [])` — no alert but also no message at all. -/
theorem c8_counterexample :
    (60:ℚ) ≤ 64 ∧ (64:ℚ) ≤ 68
      ∧ analyzeTemperature AVOCADO_PARAMS (some 64) = ("optimal", [], [])
      ∧ analyzeHumidity AVOCADO_PARAMS (some 92) = ("optimal", [], []) := by
  refine ⟨by norm_num, by norm_num, by decide, by decide⟩

/-- C8 amended: an in-range reading yields `'optimal'` with no alert and no
recommendation from the per-metric classifier; the affirmative message
(`'✅ All conditions are optimal...'`) is emitted by `analyze_conditions`
itself, prepended exactly when the overall status is `'optimal'` and the
alert list is empty. -/
theorem c8_in_range_behaviour :
    (∀ t : ℚ, 60 ≤ t → t ≤ 68 →
        analyzeTemperature AVOCADO_PARAMS (some t) = ("optimal", [], []))
      ∧ (∀ h : ℚ, 90 ≤ h → h ≤ 95 →
          analyzeHumidity AVOCADO_PARAMS (some h) = ("optimal", [], []))
      ∧ (∀ (p : Params) (t h e b : Option ℚ) (s : String) (now : ℚ),
          (analyzeConditions p t h e b s now).recommendations.head?
              = some ⟨"success", .allConditionsOptimal, "info"⟩
            ↔ (analyzeConditions p t h e b s now).status = "optimal"
                ∧ (analyzeConditions p t h e b s now).alerts = []) := by
  refine ⟨?_, ?_, ?_⟩
  · intro t ht1 ht2
    unfold analyzeTemperature AVOCADO_PARAMS
    dsimp only
    rw [if_neg (by push_neg; linarith), if_neg (by push_neg; linarith),
      if_neg (by push_neg; linarith), if_neg (by push_neg; linarith)]
  · intro h hh1 hh2
    unfold analyzeHumidity AVOCADO_PARAMS
    dsimp only
    rw [if_neg (by push_neg; linarith), if_neg (by push_neg; linarith),
      if_neg (by push_neg; linarith)]
  · intro p t h e b s now
    rw [analyzeConditions_recommendations]
    by_cases hc : (analyzeConditions p t h e b s now).status = "optimal"
        ∧ (analyzeConditions p t h e b s now).alerts = []
    · rw [if_pos hc]
      simp [hc]
    · rw [if_neg hc, List.nil_append]
      constructor
      · intro hhead
        exact absurd hhead (head_no_success (merged_recs_no_success p t h e b now))
      · intro hc2
        exact absurd hc2 hc

/-- C8 witness: temperature 64, humidity 92, an all-optimal overall analysis
carrying the synthetic affirmative recommendation at its head, and a
critical-temperature analysis that does not carry it. -/
theorem c8_in_range_behaviour_witness :
    analyzeTemperature AVOCADO_PARAMS (some 64) = ("optimal", [], [])
      ∧ analyzeHumidity AVOCADO_PARAMS (some 92) = ("optimal", [], [])
      ∧ (analyzeConditions AVOCADO_PARAMS none none none none "mid_season"
          0).recommendations.head? = some ⟨"success", .allConditionsOptimal, "info"⟩
      ∧ (analyzeConditions AVOCADO_PARAMS (some 100) none none none "mid_season"
          0).recommendations.head? ≠ some ⟨"success", .allConditionsOptimal, "info"⟩ :=
  ⟨c8_in_range_behaviour.1 64 (by norm_num) (by norm_num),
   c8_in_range_behaviour.2.1 92 (by norm_num) (by norm_num),
   (c8_in_range_behaviour.2.2 AVOCADO_PARAMS none none none none "mid_season" 0).mpr
     ⟨rfl, rfl⟩,
   fun hhead => absurd
     ((c8_in_range_behaviour.2.2 AVOCADO_PARAMS (some 100) none none none "mid_season"
         0).mp hhead).1
     (by decide)⟩

/-- C10: when all three sensor readings are null every metric is
`'unknown'`, there are no alerts, and `analyze_conditions` reports overall
status `'optimal'` with the synthetic `'✅ All conditions are optimal for
avocado ripening'` recommendation prepended — total sensor absence is
indistinguishable in status from genuinely optimal conditions. -/
theorem c10_all_null_reads_optimal (p : Params) (b : Option ℚ) (s : String) (now : ℚ) :
    (analyzeTemperature p none).1 = "unknown"
      ∧ (analyzeHumidity p none).1 = "unknown"
      ∧ (analyzeEthylene p none).1 = "unknown"
      ∧ (analyzeConditions p none none none b s now).status = "optimal"
      ∧ (analyzeConditions p none none none b s now).alerts = []
      ∧ (analyzeConditions p none none none b s now).recommendations.head?
          = some ⟨"success", .allConditionsOptimal, "info"⟩ := by
  refine ⟨rfl, rfl, rfl, rfl, rfl, ?_⟩
  simp only [analyzeConditions]
  rw [if_pos]
  · rfl
  · exact ⟨rfl, rfl⟩

end Warehouse
